import Mathlib

/-!
Verification of the listing normalization, filtering and aggregation
pipeline of `real_estate_dashboard.py` against its specification.

The pandas/streamlit code is shallowly embedded: a DataFrame column cell
is a `Val` (float, string, or `NaN`), a processed row is a `Listing`,
and each pipeline stage of the source is a Lean function on lists of
rows.  Floats are modelled as rationals; the claims only exercise
exactly representable values.
-/

namespace RealEstate

/-- Cell value of a pandas object/float column: a float (`num`), a Python
string (`str`), or missing (`NaN`, modelled as `na`). -/
inductive Val where
  | num (q : ℚ)
  | str (s : String)
  | na
deriving DecidableEq

/-- Whitespace characters removed by Python `str.strip` (the forms that
occur in the data: space, tab, newline, carriage return). -/
def isPySpace (c : Char) : Bool :=
  c = ' ' || c = '\t' || c = '\n' || c = '\r'

/-- Python `str.strip`: drop leading and trailing whitespace. -/
def pyStrip (s : String) : String :=
  String.mk (((s.data.dropWhile isPySpace).reverse.dropWhile isPySpace).reverse)

/-- Numeric value of a digit string, most significant digit first. -/
def digitsVal (cs : List Char) : ℕ :=
  cs.foldl (fun a c => a * 10 + (c.toNat - '0'.toNat)) 0

/-- Decimal-numeral parsing as done by `float` / `numpy.float64` /
`pd.to_numeric`: surrounding whitespace allowed, optional sign, integer
part and optional fractional part, at least one digit overall.  (The
exponent and `inf`/`nan` spellings Python also accepts are not exercised
by any claim.)  `none` when the string is not of this form. -/
def parseFloat (s : String) : Option ℚ :=
  let cs := (pyStrip s).data
  let body : ℚ × List Char :=
    match cs with
    | '-' :: t => (-1, t)
    | '+' :: t => (1, t)
    | _ => (1, cs)
  let ip := body.2.takeWhile (fun c => c ≠ '.')
  match body.2.dropWhile (fun c => c ≠ '.') with
  | [] =>
    if !ip.isEmpty && ip.all Char.isDigit then
      some (body.1 * digitsVal ip)
    else none
  | _ :: fp =>
    if (!ip.isEmpty || !fp.isEmpty) && ip.all Char.isDigit
        && fp.all Char.isDigit then
      some (body.1 * ((digitsVal ip : ℚ) + digitsVal fp / 10 ^ fp.length))
    else none

/-- `str.replace(r'[$,+]', '', regex=True)`: delete every occurrence of
`$`, `,` and `+`. -/
def stripPriceChars (s : String) : String :=
  String.mk (s.data.filter (fun c => !(c = '$' || c = ',' || c = '+')))

/-- One raw listing as received from the webhook: every expected key may
be absent; present values are strings. -/
structure RawListing where
  address : Option String
  price : Option String
  bedrooms : Option String
  bathrooms : Option String
  sqft : Option String
  property_type : Option String
deriving DecidableEq

/-- The `price_numeric` column:
`df['price'].str.replace(r'[$,+]','',regex=True).astype(float, errors='ignore')`.
The `.str` accessor maps absent cells to `NaN`; `astype(float,
errors='ignore')` converts the whole column to floats when every present
cell parses, and on any parse failure returns the column unchanged
(cells still strings). -/
def priceNumericCol (prices : List (Option String)) : List Val :=
  let stripped := prices.map (Option.map stripPriceChars)
  if stripped.all (fun o =>
      match o with | none => true | some s => (parseFloat s).isSome) then
    stripped.map (fun o =>
      match o with
      | none => Val.na
      | some s =>
        match parseFloat s with | some q => Val.num q | none => Val.na)
  else
    stripped.map (fun o =>
      match o with | none => Val.na | some s => Val.str s)

/-- First match of the regex `([^,]+),` on a character list: leading
commas cannot start a match; from the first non-comma character the
greedy `[^,]+` takes the maximal comma-free run, and the match succeeds
only if a comma follows that run.  `none` when there is no match. -/
def extractCore : List Char → Option (List Char)
  | [] => none
  | c :: rest =>
    if c = ',' then extractCore rest
    else
      if (rest.dropWhile (fun x => x ≠ ',')).isEmpty then none
      else some (c :: rest.takeWhile (fun x => x ≠ ','))

/-- The `neighborhood` column for one cell:
`df['address'].str.extract(r'([^,]+),')[0].str.strip()` — `NaN` (absent
address, or no regex match) stays `NaN`; a matched group is stripped. -/
def extractNeighborhood : Option String → Option String
  | none => none
  | some s => (extractCore s.data).map (fun cs => pyStrip (String.mk cs))

/-- One row of the DataFrame produced by `process_listings_data`: the
raw columns plus the derived numeric and neighborhood columns. -/
structure Listing where
  address : Option String
  price : Option String
  bedrooms : Option String
  bathrooms : Option String
  sqft : Option String
  property_type : Option String
  price_numeric : Val
  bedrooms_numeric : Option ℚ
  bathrooms_numeric : Option ℚ
  sqft_numeric : Option ℚ
  neighborhood : Option String
deriving DecidableEq

/-- `pd.to_numeric(column, errors='coerce')` for one cell: absent or
unparseable input coerces to `NaN`; the coercion is per cell. -/
def toNumericCoerce (o : Option String) : Option ℚ := o.bind parseFloat

/-- `process_listings_data`: derive the numeric columns and the
neighborhood column.  The price column is computed column-wise because
`astype(..., errors='ignore')` is an all-or-nothing column conversion;
the other numeric columns use per-cell `pd.to_numeric(errors='coerce')`. -/
def processListings (raws : List RawListing) : List Listing :=
  (raws.zip (priceNumericCol (raws.map (fun r => r.price)))).map (fun p =>
    { address := p.1.address
      price := p.1.price
      bedrooms := p.1.bedrooms
      bathrooms := p.1.bathrooms
      sqft := p.1.sqft
      property_type := p.1.property_type
      price_numeric := p.2
      bedrooms_numeric := toNumericCoerce p.1.bedrooms
      bathrooms_numeric := toNumericCoerce p.1.bathrooms
      sqft_numeric := toNumericCoerce p.1.sqft
      neighborhood := extractNeighborhood p.1.address })

/-- The filter specification assembled in the sidebar: a price range and
the multiselect selections for bedrooms and property type. -/
structure FilterSpec where
  priceMin : ℚ
  priceMax : ℚ
  bedroomsAllowed : List ℚ
  propertyTypesAllowed : List String
deriving DecidableEq

/-- `(cell >= lo) & (cell <= hi)` for one float-column cell: a `NaN`
compares `False` on both sides. -/
def pricePass (lo hi : ℚ) : Val → Bool
  | Val.num q => decide (lo ≤ q) && decide (q ≤ hi)
  | _ => false

/-- `df[(df['price_numeric'] >= lo) & (df['price_numeric'] <= hi)]`. -/
def priceFilter (lo hi : ℚ) (df : List Listing) : List Listing :=
  df.filter (fun l => pricePass lo hi l.price_numeric)

/-- `if bedrooms: df_filtered = df_filtered[df_filtered['bedrooms_numeric'].isin(bedrooms)]`:
an empty selection skips the filter entirely; `NaN.isin(...)` is `False`. -/
def bedroomsFilter (allowed : List ℚ) (df : List Listing) : List Listing :=
  if allowed.isEmpty then df
  else df.filter (fun l =>
    match l.bedrooms_numeric with
    | some b => allowed.contains b
    | none => false)

/-- `if property_types: df_filtered = df_filtered[df_filtered['property_type'].isin(property_types)]`:
the same skip on an empty selection. -/
def typeFilter (allowed : List String) (df : List Listing) : List Listing :=
  if allowed.isEmpty then df
  else df.filter (fun l =>
    match l.property_type with
    | some t => allowed.contains t
    | none => false)

/-- Whether the price column holds any unconverted string (the
`errors='ignore'` fallback): comparing such an object column against a
number raises `TypeError` in pandas. -/
def hasStrPrice (df : List Listing) : Bool :=
  df.any (fun l =>
    match l.price_numeric with | Val.str _ => true | _ => false)

/-- The filter block of `main`: the price-range mask, then the bedrooms
and property-type `isin` filters, in source order.  Errors with the
`TypeError` pandas raises when the price column was left as strings. -/
def filterListings (spec : FilterSpec) (df : List Listing) :
    Except String (List Listing) :=
  if hasStrPrice df then
    Except.error "TypeError: comparison of str column with number"
  else
    Except.ok (typeFilter spec.propertyTypesAllowed
      (bedroomsFilter spec.bedroomsAllowed
        (priceFilter spec.priceMin spec.priceMax df)))

/-- Strict lexicographic order on character lists, by code point. -/
def charListLt : List Char → List Char → Bool
  | [], [] => false
  | [], _ :: _ => true
  | _ :: _, [] => false
  | a :: as, b :: bs =>
    if a.toNat < b.toNat then true
    else if b.toNat < a.toNat then false
    else charListLt as bs

/-- Python string `<`: lexicographic comparison by code point. -/
def strLt (a b : String) : Bool := charListLt a.data b.data

/-- `<` between two non-`NaN` cells of one column.  The cells of any one
real column share a type, so the cross-type cases never reach a
comparison; they are given an arbitrary total value. -/
def valLt : Val → Val → Bool
  | Val.num a, Val.num b => decide (a < b)
  | Val.str a, Val.str b => strLt a b
  | _, _ => false

/-- Insert `x` into `l` just before the first element `h` with `r x h`. -/
def insertBy {α : Type} (r : α → α → Bool) (x : α) : List α → List α
  | [] => [x]
  | h :: t => if r x h then x :: h :: t else h :: insertBy r x t

/-- Insertion sort by the Bool relation `r`. -/
def sortBy {α : Type} (r : α → α → Bool) : List α → List α
  | [] => []
  | h :: t => insertBy r h (sortBy r t)

/-- `df.sort_values(key, ascending=False)` with the default
`na_position='last'`: pandas argsorts the non-`NaN` cells and appends
the `NaN` rows at the end in their original order.  Ties among equal
non-`NaN` keys are modelled in original order; the source's default
`kind='quicksort'` promises no tie order, and no theorem below relies
on one. -/
def sortValuesDesc (key : Listing → Val) (df : List Listing) : List Listing :=
  sortBy (fun a b => valLt (key b) (key a))
      (df.filter (fun l => !(key l == Val.na)))
    ++ df.filter (fun l => key l == Val.na)

/-- An optional string column presents a present cell as `str` and an
absent cell as `NaN`. -/
def optStrVal : Option String → Val
  | none => Val.na
  | some s => Val.str s

/-- An optional float column presents a present cell as `num` and an
absent cell as `NaN`. -/
def optNumVal : Option ℚ → Val
  | none => Val.na
  | some q => Val.num q

/-- The value of a named column in a row. -/
def colKey (c : String) (l : Listing) : Val :=
  if c = "address" then optStrVal l.address
  else if c = "price" then optStrVal l.price
  else if c = "bedrooms" then optStrVal l.bedrooms
  else if c = "bathrooms" then optStrVal l.bathrooms
  else if c = "sqft" then optStrVal l.sqft
  else if c = "property_type" then optStrVal l.property_type
  else if c = "price_numeric" then l.price_numeric
  else if c = "bedrooms_numeric" then optNumVal l.bedrooms_numeric
  else if c = "bathrooms_numeric" then optNumVal l.bathrooms_numeric
  else if c = "sqft_numeric" then optNumVal l.sqft_numeric
  else if c = "neighborhood" then optStrVal l.neighborhood
  else Val.na

/-- The columns of the processed DataFrame (`df_filtered.columns`). -/
def dfColumns : List String :=
  ["address", "price", "bedrooms", "bathrooms", "sqft", "property_type",
   "price_numeric", "bedrooms_numeric", "bathrooms_numeric",
   "sqft_numeric", "neighborhood"]

/-- The sort-and-display block of `main`:
`df_filtered.sort_values(sort_by, ascending=False).head(show_count)`
when `sort_by` is a column of the DataFrame, else silently
`df_filtered.head(show_count)`. -/
def sortAndDisplay (sortKey : String) (showCount : ℕ) (df : List Listing) :
    List Listing :=
  if sortKey ∈ dfColumns then
    (sortValuesDesc (colKey sortKey) df).take showCount
  else df.take showCount

/-- Round half to even, as `numpy.round` / `DataFrame.round` do. -/
def roundHalfEven (q : ℚ) : ℤ :=
  let f := ⌊q⌋
  if q - f < 1/2 then f
  else if 1/2 < q - f then f + 1
  else if f % 2 = 0 then f else f + 1

/-- One output row of the neighborhood aggregation. -/
structure AggRow where
  neighborhood : String
  avg_price : Option ℚ
  count : ℕ
deriving DecidableEq

/-- Whether a cell counts as present for pandas `count` (not `NaN`). -/
def Val.notNa : Val → Bool
  | Val.na => false
  | _ => true

/-- The float values among a list of cells (`mean` skips `NaN`). -/
def numCells (vs : List Val) : List ℚ :=
  vs.filterMap (fun v =>
    match v with | Val.num q => some q | _ => none)

/-- `df.groupby('neighborhood').agg({'price_numeric': ['mean','count']}).round(0)`
for one group: `count` counts the non-`NaN` price cells, `mean` averages
the float cells (`NaN` when there are none) and is then rounded.  On any
View reaching this point every non-`NaN` cell is a float. -/
def mkRow (df : List Listing) (nb : String) : AggRow :=
  let cells := (df.filter (fun l =>
    decide (l.neighborhood = some nb))).map (fun l => l.price_numeric)
  let nums := numCells cells
  { neighborhood := nb
    avg_price :=
      if nums.isEmpty then none
      else some ((roundHalfEven (nums.sum / (nums.length : ℚ)) : ℤ) : ℚ)
    count := (cells.filter Val.notNa).length }

/-- The group keys of `df.groupby('neighborhood')`: the distinct
non-`NaN` neighborhoods, sorted ascending (`groupby` defaults
`sort=True`, `dropna=True`). -/
def groupKeys (df : List Listing) : List String :=
  sortBy strLt (df.filterMap (fun l => l.neighborhood)).dedup

/-- The aggregation of `create_neighborhood_chart`: group by
neighborhood, aggregate mean and count of `price_numeric`, round, keep
the groups with `count >= 3`, take the first 10. -/
def neighborhoodStats (df : List Listing) : List AggRow :=
  (((groupKeys df).map (mkRow df)).filter
    (fun r => decide (3 ≤ r.count))).take 10

/-! Concrete rows and datasets used by the concrete theorems below. -/

/-- A row with every cell absent. -/
def baseListing : Listing :=
  { address := none, price := none, bedrooms := none, bathrooms := none,
    sqft := none, property_type := none, price_numeric := Val.na,
    bedrooms_numeric := none, bathrooms_numeric := none,
    sqft_numeric := none, neighborhood := none }

/-- A house in neighborhood A priced 100 with 2 bedrooms. -/
def listingP100 : Listing :=
  { baseListing with
      price_numeric := Val.num 100, bedrooms_numeric := some 2,
      property_type := some "House", neighborhood := some "A" }

/-- A condo in neighborhood B priced 300 with 3 bedrooms. -/
def listingP300 : Listing :=
  { baseListing with
      price_numeric := Val.num 300, bedrooms_numeric := some 3,
      property_type := some "Condo", neighborhood := some "B" }

/-- A house in neighborhood A with an unknown (`NaN`) price. -/
def listingPNa : Listing :=
  { baseListing with
      price_numeric := Val.na, bedrooms_numeric := some 2,
      property_type := some "House", neighborhood := some "A" }

/-- A row with only a price and a neighborhood set. -/
def rowPN (pn : Val) (nb : String) : Listing :=
  { baseListing with price_numeric := pn, neighborhood := some nb }

/-- Price range 0–1000 with empty bedroom and property-type selections. -/
def specEmptySel : FilterSpec := ⟨0, 1000, [], []⟩

/-- Six priced listings whose neighborhoods first appear in the order
B, A (three listings each). -/
def dfBA : List Listing :=
  [rowPN (Val.num 1) "B", rowPN (Val.num 2) "B", rowPN (Val.num 3) "B",
   rowPN (Val.num 4) "A", rowPN (Val.num 5) "A", rowPN (Val.num 6) "A"]

/-- Three listings in neighborhood A, one of them with unknown price. -/
def dfA3 : List Listing :=
  [rowPN (Val.num 100) "A", rowPN (Val.num 200) "A", rowPN Val.na "A"]

/-- The testable-properties example: neighborhoods A, A, A, B, B with
prices 100, 200, 300, 400, 500, fed through `process_listings_data`. -/
def rawsAB : List RawListing :=
  [⟨some "A, X", some "100", none, none, none, none⟩,
   ⟨some "A, X", some "200", none, none, none, none⟩,
   ⟨some "A, X", some "300", none, none, none, none⟩,
   ⟨some "B, X", some "400", none, none, none, none⟩,
   ⟨some "B, X", some "500", none, none, none, none⟩]

/-! Helper lemmas. -/

/-- Two strings with the same characters are equal. -/
theorem stringData_inj {a b : String} (h : a.data = b.data) : a = b := by
  cases a
  cases b
  exact congrArg String.mk h

/-- Characters with the same code point are equal. -/
theorem charToNat_inj {a b : Char} (h : a.toNat = b.toNat) : a = b := by
  have h2 := congrArg Char.ofNat h
  rwa [Char.ofNat_toNat, Char.ofNat_toNat] at h2

/-- `charListLt` is transitive. -/
theorem charListLt_trans :
    ∀ (a b c : List Char), charListLt a b = true → charListLt b c = true →
      charListLt a c = true
  | [], [], _, hab, _ => by simp [charListLt] at hab
  | [], _ :: _, [], _, hbc => by simp [charListLt] at hbc
  | [], _ :: _, _ :: _, _, _ => by simp [charListLt]
  | _ :: _, [], _, hab, _ => by simp [charListLt] at hab
  | _ :: _, _ :: _, [], _, hbc => by simp [charListLt] at hbc
  | a :: as, b :: bs, c :: cs, hab, hbc => by
    simp only [charListLt] at hab hbc ⊢
    by_cases h1 : a.toNat < b.toNat
    · by_cases h2 : b.toNat < c.toNat
      · have h3 : a.toNat < c.toNat := Nat.lt_trans h1 h2
        simp [h3]
      · rw [if_neg h2] at hbc
        by_cases h3 : c.toNat < b.toNat
        · rw [if_pos h3] at hbc
          simp at hbc
        · have h4 : a.toNat < c.toNat := by omega
          simp [h4]
    · rw [if_neg h1] at hab
      by_cases h1' : b.toNat < a.toNat
      · rw [if_pos h1'] at hab
        simp at hab
      · rw [if_neg h1'] at hab
        by_cases h2 : b.toNat < c.toNat
        · have h4 : a.toNat < c.toNat := by omega
          simp [h4]
        · rw [if_neg h2] at hbc
          by_cases h3 : c.toNat < b.toNat
          · rw [if_pos h3] at hbc
            simp at hbc
          · rw [if_neg h3] at hbc
            have hac : ¬ a.toNat < c.toNat := by omega
            have hca : ¬ c.toNat < a.toNat := by omega
            rw [if_neg hac, if_neg hca]
            exact charListLt_trans as bs cs hab hbc

/-- `charListLt` relates any two distinct lists one way or the other. -/
theorem charListLt_conn :
    ∀ (a b : List Char), a ≠ b →
      charListLt a b = true ∨ charListLt b a = true
  | [], [], h => absurd rfl h
  | [], _ :: _, _ => Or.inl (by simp [charListLt])
  | _ :: _, [], _ => Or.inr (by simp [charListLt])
  | a :: as, b :: bs, h => by
    by_cases h1 : a.toNat < b.toNat
    · exact Or.inl (by simp [charListLt, h1])
    · by_cases h2 : b.toNat < a.toNat
      · exact Or.inr (by simp [charListLt, h2])
      · have hab : a = b := charToNat_inj (by omega)
        have hne : as ≠ bs := by
          intro hh
          exact h (by rw [hab, hh])
        rcases charListLt_conn as bs hne with hc | hc
        · exact Or.inl (by simp [charListLt, h1, h2, hc])
        · refine Or.inr (by simp [charListLt, hab, hc])

/-- `strLt` is transitive. -/
theorem strLt_trans (a b c : String) (hab : strLt a b = true)
    (hbc : strLt b c = true) : strLt a c = true :=
  charListLt_trans a.data b.data c.data hab hbc

/-- `strLt` relates any two distinct strings one way or the other. -/
theorem strLt_conn (a b : String) (h : a ≠ b) :
    strLt a b = true ∨ strLt b a = true :=
  charListLt_conn a.data b.data (fun hh => h (stringData_inj hh))

/-- `insertBy` permutes the element onto the list. -/
theorem insertBy_perm {α : Type} (r : α → α → Bool) (x : α) :
    ∀ l : List α, (insertBy r x l).Perm (x :: l)
  | [] => List.Perm.refl _
  | h :: t => by
    simp only [insertBy]
    by_cases hc : r x h = true
    · rw [if_pos hc]
    · rw [if_neg hc]
      exact (List.Perm.cons h (insertBy_perm r x t)).trans
        (List.Perm.swap x h t)

/-- `sortBy` permutes its input. -/
theorem sortBy_perm {α : Type} (r : α → α → Bool) :
    ∀ l : List α, (sortBy r l).Perm l
  | [] => List.Perm.refl _
  | h :: t =>
    (insertBy_perm r h (sortBy r t)).trans
      (List.Perm.cons h (sortBy_perm r t))

/-- Inserting a fresh element into a pairwise-ordered list keeps it
pairwise ordered, for a transitive and connected strict relation. -/
theorem pairwise_insertBy {α : Type} {r : α → α → Bool}
    (htrans : ∀ a b c, r a b = true → r b c = true → r a c = true)
    (hconn : ∀ a b, a ≠ b → r a b = true ∨ r b a = true) (x : α) :
    ∀ l : List α, l.Pairwise (fun a b => r a b = true) →
      (∀ y ∈ l, x ≠ y) →
      (insertBy r x l).Pairwise (fun a b => r a b = true)
  | [], _, _ => by simp [insertBy]
  | h :: t, hp, hne => by
    simp only [insertBy]
    rcases List.pairwise_cons.mp hp with ⟨hht, hpt⟩
    by_cases hc : r x h = true
    · rw [if_pos hc]
      refine List.pairwise_cons.mpr ⟨?_, hp⟩
      intro y hy
      rcases List.mem_cons.mp hy with rfl | hyt
      · exact hc
      · exact htrans x h y hc (hht y hyt)
    · rw [if_neg hc]
      refine List.pairwise_cons.mpr ⟨?_, ?_⟩
      · intro y hy
        have hy' : y = x ∨ y ∈ t := by
          have hmem := (insertBy_perm r x t).mem_iff.mp hy
          simpa using hmem
        rcases hy' with rfl | hyt
        · rcases hconn h y
              (Ne.symm (hne h (List.mem_cons_self h t))) with hr | hr
          · exact hr
          · exact absurd hr hc
        · exact hht y hyt
      · exact pairwise_insertBy htrans hconn x t hpt
          (fun y hy => hne y (List.mem_cons_of_mem h hy))

/-- Insertion sort of a duplicate-free list is pairwise ordered, for a
transitive and connected strict relation. -/
theorem pairwise_sortBy {α : Type} {r : α → α → Bool}
    (htrans : ∀ a b c, r a b = true → r b c = true → r a c = true)
    (hconn : ∀ a b, a ≠ b → r a b = true ∨ r b a = true) :
    ∀ l : List α, l.Nodup →
      (sortBy r l).Pairwise (fun a b => r a b = true)
  | [], _ => by simp [sortBy]
  | h :: t, hnd => by
    simp only [sortBy]
    rcases List.nodup_cons.mp hnd with ⟨hht, hndt⟩
    refine pairwise_insertBy htrans hconn h (sortBy r t)
      (pairwise_sortBy htrans hconn t hndt) ?_
    intro y hy heq
    exact hht (by rw [heq]; exact (sortBy_perm r t).mem_iff.mp hy)

/-- The group keys are strictly sorted. -/
theorem pairwise_groupKeys (df : List Listing) :
    (groupKeys df).Pairwise (fun a b => strLt a b = true) :=
  pairwise_sortBy strLt_trans strLt_conn _
    (List.nodup_dedup (df.filterMap (fun l => l.neighborhood)))

/-- The price filter keeps a sublist. -/
theorem priceFilter_sublist (lo hi : ℚ) (df : List Listing) :
    (priceFilter lo hi df).Sublist df :=
  List.filter_sublist df

/-- The bedrooms filter keeps a sublist. -/
theorem bedroomsFilter_sublist (al : List ℚ) (df : List Listing) :
    (bedroomsFilter al df).Sublist df := by
  unfold bedroomsFilter
  split
  · exact List.Sublist.refl df
  · exact List.filter_sublist df

/-- The property-type filter keeps a sublist. -/
theorem typeFilter_sublist (al : List String) (df : List Listing) :
    (typeFilter al df).Sublist df := by
  unfold typeFilter
  split
  · exact List.Sublist.refl df
  · exact List.filter_sublist df

/-- An empty bedrooms selection skips the bedrooms filter. -/
theorem bedroomsFilter_nil (df : List Listing) :
    bedroomsFilter [] df = df := by
  simp [bedroomsFilter]

/-- An empty property-type selection skips the property-type filter. -/
theorem typeFilter_nil (df : List Listing) : typeFilter [] df = df := by
  simp [typeFilter]

/-- A successful filter result is exactly the three filters chained. -/
theorem filterListings_ok_eq {spec : FilterSpec} {df v : List Listing}
    (h : filterListings spec df = Except.ok v) :
    v = typeFilter spec.propertyTypesAllowed
      (bedroomsFilter spec.bedroomsAllowed
        (priceFilter spec.priceMin spec.priceMax df)) := by
  unfold filterListings at h
  split at h
  · simp at h
  · injection h with h
    exact h.symm

/-- The descending sort is the non-`NaN` block followed by the `NaN`
block. -/
theorem sortValuesDesc_split (key : Listing → Val) (df : List Listing) :
    ∃ a b, sortValuesDesc key df = a ++ b ∧
      (∀ l ∈ a, key l ≠ Val.na) ∧ (∀ l ∈ b, key l = Val.na) := by
  refine ⟨sortBy (fun a b => valLt (key b) (key a))
      (df.filter (fun l => !(key l == Val.na))),
    df.filter (fun l => key l == Val.na), rfl, ?_, ?_⟩
  · intro l hl
    have hl2 : l ∈ df.filter (fun l => !(key l == Val.na)) :=
      (sortBy_perm _ _).mem_iff.mp hl
    have hl3 := (List.mem_filter.mp hl2).2
    simpa using hl3
  · intro l hl
    have hl2 := (List.mem_filter.mp hl).2
    simpa using hl2

/-- `takeWhile` passes over a block wholly satisfying the predicate. -/
theorem takeWhile_append_of_all {α : Type} (p : α → Bool) :
    ∀ (l m : List α), (∀ x ∈ l, p x = true) →
      (l ++ m).takeWhile p = l ++ m.takeWhile p
  | [], _, _ => rfl
  | h :: t, m, hall => by
    have hh : p h = true := hall h (List.mem_cons_self h t)
    have ih := takeWhile_append_of_all p t m
      (fun x hx => hall x (List.mem_cons_of_mem h hx))
    simp [List.takeWhile_cons, hh, ih]

/-- `dropWhile` passes over a block wholly satisfying the predicate. -/
theorem dropWhile_append_of_all {α : Type} (p : α → Bool) :
    ∀ (l m : List α), (∀ x ∈ l, p x = true) →
      (l ++ m).dropWhile p = m.dropWhile p
  | [], _, _ => rfl
  | h :: t, m, hall => by
    have hh : p h = true := hall h (List.mem_cons_self h t)
    have ih := dropWhile_append_of_all p t m
      (fun x hx => hall x (List.mem_cons_of_mem h hx))
    simp [List.dropWhile_cons, hh, ih]

/-- The regex `([^,]+),` finds no match in a comma-free list. -/
theorem extractCore_eq_none_of_no_comma :
    ∀ cs : List Char, ',' ∉ cs → extractCore cs = none
  | [], _ => rfl
  | c :: rest, h => by
    have hc : ¬ c = ',' := fun hh => h (by rw [hh]; exact List.mem_cons_self _ _)
    have hd : rest.dropWhile (fun x => decide (x ≠ ',')) = [] := by
      refine List.dropWhile_eq_nil_iff.mpr ?_
      intro x hx
      simp only [decide_eq_true_eq]
      intro hh
      subst hh
      exact h (List.mem_cons_of_mem c hx)
    simp only [extractCore]
    rw [if_neg hc, hd]
    simp

/-- On `as ++ "," ++ bs` with `as` nonempty and comma-free, the regex
captures exactly `as`. -/
theorem extractCore_append :
    ∀ (as bs : List Char), as ≠ [] → ',' ∉ as →
      extractCore (as ++ ',' :: bs) = some as
  | [], _, hne, _ => absurd rfl hne
  | a :: as', bs, _, hnc => by
    have ha : ¬ a = ',' := fun hh => hnc (by rw [hh]; exact List.mem_cons_self _ _)
    have hall : ∀ x ∈ as', (fun x => decide (x ≠ ',')) x = true := by
      intro x hx
      simp only [decide_eq_true_eq]
      intro hh
      subst hh
      exact hnc (List.mem_cons_of_mem a hx)
    have hdrop : (as' ++ ',' :: bs).dropWhile (fun x => decide (x ≠ ','))
        = ',' :: bs := by
      rw [dropWhile_append_of_all _ as' (',' :: bs) hall]
      simp [List.dropWhile_cons]
    have htake : (as' ++ ',' :: bs).takeWhile (fun x => decide (x ≠ ','))
        = as' := by
      rw [takeWhile_append_of_all _ as' (',' :: bs) hall]
      simp [List.takeWhile_cons]
    simp only [List.cons_append, extractCore, List.append_eq]
    rw [if_neg ha, hdrop,
      if_neg (by simp : ¬((',' :: bs).isEmpty = true)), htake]

/-- Rebuilding a string from its characters is the identity. -/
theorem stringMk_data (s : String) : String.mk s.data = s := by
  cases s
  rfl

/-- A nonempty string has characters. -/
theorem stringData_ne_nil {a : String} (h : a ≠ "") : a.data ≠ [] :=
  fun hh => h (stringData_inj hh)

/-! Claim theorems. -/

/-- C1 (counterexample): with empty bedroom and property-type
selections the filter output is NOT the empty View — the lone listing
passes, because `if bedrooms:` / `if property_types:` skip the filters
on an empty selection. -/
theorem C1_counterexample :
    filterListings specEmptySel [listingP100] = Except.ok [listingP100] ∧
    ([listingP100] : List Listing) ≠ [] :=
  ⟨rfl, by decide⟩

/-- C1 (amended): an empty bedrooms selection and an empty
property-type selection make the corresponding filters be skipped
entirely: a successful filter output equals the price-filtered dataset
alone, so every listing passing the price filter passes. -/
theorem C1_empty_selection_skips (spec : FilterSpec) (df v : List Listing)
    (h : filterListings spec df = Except.ok v)
    (hb : spec.bedroomsAllowed = []) (hp : spec.propertyTypesAllowed = []) :
    v = priceFilter spec.priceMin spec.priceMax df := by
  have h2 := filterListings_ok_eq h
  rw [hb, hp, bedroomsFilter_nil, typeFilter_nil] at h2
  exact h2

/-- C1 (witness): the amended theorem at the one-listing dataset with
empty selections. -/
theorem C1_empty_selection_skips_witness :
    ([listingP100] : List Listing) =
      priceFilter specEmptySel.priceMin specEmptySel.priceMax
        [listingP100] :=
  C1_empty_selection_skips specEmptySel [listingP100] [listingP100]
    rfl rfl rfl

/-- C2 (counterexample): a listing with `NaN` price is dropped by the
price filter even though the range is wide open — refuting "never
excluded by the price filter". -/
theorem C2_counterexample :
    listingPNa.price_numeric = Val.na ∧
    filterListings specEmptySel [listingPNa] = Except.ok [] :=
  ⟨rfl, rfl⟩

/-- C2 (amended): a listing whose coerced price is `NaN` is ALWAYS
excluded by the price filter (a pandas `NaN` comparison is false on
both bounds): every listing surviving the filter has a non-`NaN`
price. -/
theorem C2_null_price_always_excluded (spec : FilterSpec)
    (df v : List Listing) (l : Listing)
    (h : filterListings spec df = Except.ok v) (hl : l ∈ v) :
    l.price_numeric ≠ Val.na := by
  rw [filterListings_ok_eq h] at hl
  have h1 : l ∈ priceFilter spec.priceMin spec.priceMax df :=
    List.Sublist.mem (List.Sublist.mem hl (typeFilter_sublist _ _))
      (bedroomsFilter_sublist _ _)
  have h2 := (List.mem_filter.mp h1).2
  intro hna
  rw [hna] at h2
  simp [pricePass] at h2

/-- C2 (witness): the amended theorem at a concrete filter run. -/
theorem C2_null_price_always_excluded_witness :
    listingP100.price_numeric ≠ Val.na :=
  C2_null_price_always_excluded specEmptySel [listingP100] [listingP100]
    listingP100 rfl (by decide)

unseal Rat.mul Rat.inv Rat.add Rat.sub in
/-- C3 (code bug, evaluation): one malformed price makes
`astype(float, errors='ignore')` return the whole column unconverted,
so the well-formed `"$100"` coerces to the string `"100"` instead of
the float 100 it coerces to when alone — coercion is not independent
per listing and the unparseable cell is not `NaN`. -/
theorem C3_column_coercion_not_independent :
    priceNumericCol [some "$100", some "abc"]
        = [Val.str "100", Val.str "abc"] ∧
    priceNumericCol [some "$100"] = [Val.num 100] := by
  decide

/-- C4 (counterexample): on a View whose neighborhoods first appear in
the order B, A, the aggregation outputs A before B — `groupby` sorts
the keys, refuting first-seen ordering. -/
theorem C4_counterexample :
    (neighborhoodStats dfBA).map (fun r => r.neighborhood) = ["A", "B"] ∧
    (dfBA.filterMap (fun l => l.neighborhood)).dedup = ["B", "A"] := by
  decide

/-- C4 (amended): surviving groups are ordered by neighborhood key
ascending (lexicographic, the pandas `groupby` sort), truncated to at
most 10 groups. -/
theorem C4_groups_sorted_by_key (df : List Listing) :
    ((neighborhoodStats df).map (fun r => r.neighborhood)).Pairwise
      (fun a b => strLt a b = true) ∧
    (neighborhoodStats df).length ≤ 10 := by
  constructor
  · have h1 := pairwise_groupKeys df
    have h2 : ((groupKeys df).map (mkRow df)).Pairwise
        (fun r1 r2 => strLt r1.neighborhood r2.neighborhood = true) :=
      List.pairwise_map.mpr (h1.imp (fun {a b} hh => hh))
    have h3 := h2.filter (fun r => decide (3 ≤ r.count))
    have h4 := List.Pairwise.sublist (List.take_sublist 10 _) h3
    exact List.pairwise_map.mpr h4
  · exact List.length_take_le 10 _

/-- C5 (counterexample): a group of three listings in neighborhood A
of which one has `NaN` price is dropped entirely — the pandas `count`
is the non-null count 2, not the 3 listings the claim asserts. -/
theorem C5_counterexample :
    (dfA3.filter (fun l => decide (l.neighborhood = some "A"))).length
        = 3 ∧
    neighborhoodStats dfA3 = [] := by
  decide

unseal Rat.mul Rat.inv Rat.add Rat.sub in
/-- C5 (amended): every output group's count is the number of its
listings with non-`NaN` price and is at least 3; the concrete A/B
example still yields exactly one row `{A, 200, 3}` because all its
prices are known. -/
theorem C5_count_is_nonnull_count :
    (∀ (df : List Listing) (r : AggRow), r ∈ neighborhoodStats df →
        3 ≤ r.count ∧
        r.count = (((df.filter (fun l =>
              decide (l.neighborhood = some r.neighborhood))).map
            (fun l => l.price_numeric)).filter Val.notNa).length) ∧
    neighborhoodStats (processListings rawsAB)
      = [{ neighborhood := "A", avg_price := some 200, count := 3 }] := by
  constructor
  · intro df r hr
    have hr1 := List.mem_of_mem_take hr
    have hr2 := List.mem_filter.mp hr1
    rcases List.mem_map.mp hr2.1 with ⟨k, hk, hrk⟩
    refine ⟨by simpa using hr2.2, ?_⟩
    subst hrk
    rfl
  · decide

unseal Rat.mul Rat.inv Rat.add Rat.sub in
/-- C5 (witness): the amended theorem at the concrete A/B dataset and
its output row. -/
theorem C5_count_is_nonnull_count_witness :
    3 ≤ (AggRow.mk "A" (some 200) 3).count ∧
    (AggRow.mk "A" (some 200) 3).count
      = ((((processListings rawsAB).filter (fun l =>
            decide (l.neighborhood
              = some (AggRow.mk "A" (some 200) 3).neighborhood))).map
          (fun l => l.price_numeric)).filter Val.notNa).length :=
  C5_count_is_nonnull_count.1 (processListings rawsAB)
    (AggRow.mk "A" (some 200) 3) (by decide)

/-- C6 (counterexample): requesting the non-column sort key
`"zipcode"` silently returns the unsorted head — no error — although
the real descending price sort would reverse this two-listing View. -/
theorem C6_counterexample :
    "zipcode" ∉ dfColumns ∧
    sortAndDisplay "zipcode" 2 [listingP100, listingP300]
        = [listingP100, listingP300] ∧
    sortValuesDesc (colKey "price_numeric") [listingP100, listingP300]
        = [listingP300, listingP100] := by
  decide

/-- C6 (amended): for a sort key that is not a DataFrame column the
code silently returns the first `n` rows of the unsorted View instead
of failing fast. -/
theorem C6_unknown_key_silently_unsorted (key : String) (n : ℕ)
    (df : List Listing) (h : key ∉ dfColumns) :
    sortAndDisplay key n df = df.take n := by
  unfold sortAndDisplay
  rw [if_neg h]

/-- C6 (witness): the amended theorem at the key `"zipcode"`. -/
theorem C6_unknown_key_silently_unsorted_witness :
    sortAndDisplay "zipcode" 1 [listingP100] = [listingP100].take 1 :=
  C6_unknown_key_silently_unsorted "zipcode" 1 [listingP100] (by decide)

/-- C7 (counterexample): an address that starts with a comma yields a
null neighborhood, not the empty-string group the claim asserts — the
regex `([^,]+),` requires a non-comma character before the comma. -/
theorem C7_counterexample :
    extractNeighborhood (some ",Springfield") ≠ some "" ∧
    extractNeighborhood (some ",Springfield") = none := by
  decide

/-- C7 (amended): extraction never throws and returns the first
maximal nonempty comma-free run that is followed by a comma, trimmed;
it returns null on a null address and on a comma-free (in particular
empty) address, and leading commas are skipped — so an address
starting with a comma yields null, not an empty-string group, when
nothing matchable follows. -/
theorem C7_extract_characterization :
    extractNeighborhood none = none ∧
    (∀ s : String, ',' ∉ s.data → extractNeighborhood (some s) = none) ∧
    (∀ a b : String, a ≠ "" → ',' ∉ a.data →
        extractNeighborhood (some (a ++ "," ++ b)) = some (pyStrip a)) ∧
    (∀ s : String, extractNeighborhood (some ("," ++ s))
        = extractNeighborhood (some s)) := by
  refine ⟨rfl, ?_, ?_, ?_⟩
  · intro s hs
    simp only [extractNeighborhood]
    rw [extractCore_eq_none_of_no_comma s.data hs]
    rfl
  · intro a b ha hc
    simp only [extractNeighborhood]
    have hdata : (a ++ "," ++ b).data = a.data ++ ',' :: b.data := by
      rw [String.data_append, String.data_append, List.append_assoc]
      rfl
    rw [hdata, extractCore_append a.data b.data (stringData_ne_nil ha) hc]
    simp [stringMk_data]
  · intro s
    simp only [extractNeighborhood]
    have hdata : ("," ++ s).data = ',' :: s.data := by
      rw [String.data_append]
      rfl
    rw [hdata]
    simp [extractCore]

/-- C7 (witness): the amended theorem's positive clause at the spec's
own example address. -/
theorem C7_extract_characterization_witness :
    extractNeighborhood (some ("123 Main St" ++ "," ++ " Springfield"))
      = some (pyStrip "123 Main St") :=
  C7_extract_characterization.2.2.1 "123 Main St" " Springfield"
    (by decide) (by decide)

/-- C9 (confirmed): a successful filter output is an order-preserving
sublist of the input dataset — filtering never re-orders, never adds,
and never grows the View. -/
theorem C9_filtered_is_sublist (spec : FilterSpec) (df v : List Listing)
    (h : filterListings spec df = Except.ok v) : v.Sublist df := by
  rw [filterListings_ok_eq h]
  exact ((typeFilter_sublist _ _).trans
    ((bedroomsFilter_sublist _ _).trans (priceFilter_sublist _ _ _)))

/-- C9 (witness): the theorem at a concrete two-listing dataset. -/
theorem C9_filtered_is_sublist_witness :
    List.Sublist [listingP100] [listingP100, listingPNa] :=
  C9_filtered_is_sublist specEmptySel [listingP100, listingPNa]
    [listingP100] rfl

/-- C10 (confirmed): the descending sort places every row whose sort
key is `NaN` after all rows with a non-`NaN` key, for both numeric sort
keys — the implementation's null-ordering policy is nulls-last
(`na_position='last'`). -/
theorem C10_nulls_sort_last (df : List Listing) :
    (∃ a b, sortValuesDesc (colKey "price_numeric") df = a ++ b ∧
        (∀ l ∈ a, colKey "price_numeric" l ≠ Val.na) ∧
        (∀ l ∈ b, colKey "price_numeric" l = Val.na)) ∧
    (∃ a b, sortValuesDesc (colKey "bedrooms_numeric") df = a ++ b ∧
        (∀ l ∈ a, colKey "bedrooms_numeric" l ≠ Val.na) ∧
        (∀ l ∈ b, colKey "bedrooms_numeric" l = Val.na)) :=
  ⟨sortValuesDesc_split _ df, sortValuesDesc_split _ df⟩

end RealEstate
